import Mathlib

/-!
Verification of the Aura-Calendar backend (`src/backend`) against its
natural-language specification.  The event store (`database.py`) is embedded
as pure functions over a list of event rows; the dispatcher branches of
`conversation_manager.process_message` are embedded as explicit state-passing
functions; the intent-classifier post-processing (`intent_classifier.py`) is
embedded as a total function on the possible outcomes of the model call.
Timestamps are modelled as integers (seconds), which carries the total order
that every SQL comparison in the source uses.
-/

/-- A row of the `events` table (`database.py`, `setup_tables`).  The
`created_at` column is never read by any of the operations under study and is
omitted. -/
structure Event where
  id : Nat
  title : String
  description : String
  start_time : Int
  end_time : Int
  location : String
  importance : Int
  status : String
deriving DecidableEq, Repr

/-- The WHERE clause of `check_conflicting_events` (database.py:330-348):
`start_time < end AND end_time > start AND status = 'active'`, plus
`id != exclude_event_id` when an exclusion id is supplied. -/
def conflictCond (start_time end_time : Int) (exclude_event_id : Option Nat)
    (ev : Event) : Bool :=
  decide (ev.start_time < end_time) && decide (ev.end_time > start_time) &&
    (ev.status == "active") &&
    (match exclude_event_id with
     | none => true
     | some i => ev.id != i)

/-- The sort key `ORDER BY importance DESC, start_time ASC` of
`check_conflicting_events`: `a` may precede `b` iff `a` has strictly larger
importance, or equal importance and `a.start_time ≤ b.start_time`. -/
def importanceOrder (a b : Event) : Prop :=
  b.importance < a.importance ∨
    (a.importance = b.importance ∧ a.start_time ≤ b.start_time)

instance : DecidableRel importanceOrder := fun a b => by
  unfold importanceOrder
  exact inferInstance

instance : IsTotal Event importanceOrder :=
  ⟨by intro a b; unfold importanceOrder; omega⟩

instance : IsTrans Event importanceOrder :=
  ⟨by intro a b c; unfold importanceOrder; omega⟩

/-- `database.py:318-367` — `check_conflicting_events`: the rows satisfying
the conflict WHERE clause, ordered by importance descending then start time
ascending (any SQL execution returns some list sorted by these keys; we model
it with insertion sort, which produces such a list). -/
def check_conflicting_events (events : List Event) (start_time end_time : Int)
    (exclude_event_id : Option Nat) : List Event :=
  List.insertionSort importanceOrder
    (events.filter (conflictCond start_time end_time exclude_event_id))

/-- The WHERE clause of `get_events_in_range` (database.py:292-299):
`(start_time BETWEEN s AND e) OR (end_time BETWEEN s AND e) OR
(start_time <= s AND end_time >= e)`; SQL `BETWEEN` is inclusive on both
ends. -/
def rangeCond (s e : Int) (ev : Event) : Bool :=
  (decide (s ≤ ev.start_time) && decide (ev.start_time ≤ e)) ||
  (decide (s ≤ ev.end_time) && decide (ev.end_time ≤ e)) ||
  (decide (ev.start_time ≤ s) && decide (ev.end_time ≥ e))

/-- The sort key `ORDER BY start_time ASC` of `get_events_in_range`. -/
def startOrder (a b : Event) : Prop :=
  a.start_time ≤ b.start_time

instance : DecidableRel startOrder := fun a b => by
  unfold startOrder
  exact inferInstance

instance : IsTotal Event startOrder :=
  ⟨by intro a b; unfold startOrder; omega⟩

instance : IsTrans Event startOrder :=
  ⟨by intro a b c; unfold startOrder; omega⟩

/-- `database.py:287-316` — `get_events_in_range`. -/
def get_events_in_range (events : List Event) (start_time end_time : Int) :
    List Event :=
  List.insertionSort startOrder (events.filter (rangeCond start_time end_time))

/-- Claim C1: `check_conflicting_events` returns a stored event `E` iff
`E.start_time < end ∧ E.end_time > start` (strict), `E.status = "active"`,
and `E.id` differs from the exclusion id when one is given; the result is
ordered by importance descending with ties broken by start time ascending.
In particular an event ending exactly when the queried interval begins is not
returned. -/
theorem check_conflicting_events_spec (events : List Event)
    (s e : Int) (ex : Option Nat) (E : Event) :
    (E ∈ check_conflicting_events events s e ex ↔
      E ∈ events ∧ E.start_time < e ∧ E.end_time > s ∧ E.status = "active" ∧
        (∀ i, ex = some i → E.id ≠ i)) ∧
    List.Sorted importanceOrder (check_conflicting_events events s e ex) := by
  constructor
  · rw [check_conflicting_events,
      (List.perm_insertionSort importanceOrder _).mem_iff, List.mem_filter]
    cases ex with
    | none => simp [conflictCond, and_assoc]
    | some i => simp [conflictCond, and_assoc]
  · exact List.sorted_insertionSort importanceOrder _

/-- Claim C4 counterexample: an active event ending exactly at the start of
the queried range is returned by `get_events_in_range` (SQL `BETWEEN` is
inclusive), although the claimed strict half-open rule would exclude it. -/
theorem get_events_in_range_c4_counterexample :
    (let ev : Event :=
      { id := 1, title := "A", description := "", start_time := 0,
        end_time := 10, location := "", importance := 5, status := "active" }
     ev ∈ get_events_in_range [ev] 10 20 ∧ ¬ (ev.end_time > 10)) := by
  decide

/-- Claim C4 (amended): `get_events_in_range` returns exactly the stored
events satisfying the inclusive condition
`(s ≤ start_time ≤ e) ∨ (s ≤ end_time ≤ e) ∨ (start_time ≤ s ∧ end_time ≥ e)`
(closed-interval overlap — boundary-touching events are included, and the
status column is not filtered), ordered by start time ascending. -/
theorem get_events_in_range_spec (events : List Event) (s e : Int) (E : Event) :
    (E ∈ get_events_in_range events s e ↔
      E ∈ events ∧
        ((s ≤ E.start_time ∧ E.start_time ≤ e) ∨
         (s ≤ E.end_time ∧ E.end_time ≤ e) ∨
         (E.start_time ≤ s ∧ E.end_time ≥ e))) ∧
    List.Sorted startOrder (get_events_in_range events s e) := by
  constructor
  · rw [get_events_in_range,
      (List.perm_insertionSort startOrder _).mem_iff, List.mem_filter]
    simp [rangeCond, or_assoc]
  · exact List.sorted_insertionSort startOrder _

/-- The partial event-data dictionaries that flow through the system: the
intent classifier's `event_details` and the argument of the store's write
operations.  A `none` field models an absent dictionary key. -/
structure EventData where
  title : Option String
  description : Option String
  start_time : Option Int
  end_time : Option Int
  location : Option String
  importance : Option Int
  status : Option String
  event_id : Option Nat
deriving DecidableEq, Repr

/-- The empty `event_details` dictionary. -/
def emptyData : EventData :=
  { title := none, description := none, start_time := none, end_time := none,
    location := none, importance := none, status := none, event_id := none }

/-- The event store: the `events` table rows together with the next value of
the `SERIAL` id column. -/
structure DB where
  events : List Event
  nextId : Nat
deriving DecidableEq, Repr

/-- `database.py:159-194` — `add_event`: raises `ValueError` when `title`,
`start_time` or `end_time` is absent (checked in that order); otherwise
inserts a row (with defaults `description = ''`, `location = ''`,
`importance = 5`, and the column default `status = 'active'`) and returns the
fresh id. -/
def add_event (db : DB) (d : EventData) : Except String (DB × Nat) :=
  match d.title with
  | none => .error "Missing required field: title"
  | some t =>
    match d.start_time with
    | none => .error "Missing required field: start_time"
    | some s =>
      match d.end_time with
      | none => .error "Missing required field: end_time"
      | some e =>
        .ok ({ events := db.events ++
                [{ id := db.nextId, title := t,
                   description := d.description.getD "",
                   start_time := s, end_time := e,
                   location := d.location.getD "",
                   importance := d.importance.getD 5,
                   status := "active" }],
               nextId := db.nextId + 1 },
             db.nextId)

/-- Applying the whitelisted fields of an update dictionary to a row
(`database.py:205-208`). -/
def applyUpdate (d : EventData) (ev : Event) : Event :=
  { ev with
    title := d.title.getD ev.title,
    description := d.description.getD ev.description,
    start_time := d.start_time.getD ev.start_time,
    end_time := d.end_time.getD ev.end_time,
    location := d.location.getD ev.location,
    importance := d.importance.getD ev.importance,
    status := d.status.getD ev.status }

/-- `database.py:196-229` — `update_event`: when no whitelisted key (`title`,
`description`, `start_time`, `end_time`, `location`, `importance`, `status`)
is present it returns `False` before executing any SQL; otherwise it updates
every row whose id matches and reports whether any row was affected. -/
def update_event (db : DB) (event_id : Nat) (d : EventData) : DB × Bool :=
  if d.title = none ∧ d.description = none ∧ d.start_time = none ∧
      d.end_time = none ∧ d.location = none ∧ d.importance = none ∧
      d.status = none then
    (db, false)
  else
    ({ db with events := db.events.map (fun ev =>
        if ev.id = event_id then applyUpdate d ev else ev) },
     db.events.any (fun ev => ev.id == event_id))

/-- `database.py:231-267` — `delete_event`: checks existence first, then
deletes the row; returns whether a row was deleted. -/
def delete_event (db : DB) (event_id : Nat) : DB × Bool :=
  if db.events.any (fun ev => ev.id == event_id) then
    ({ db with events := db.events.filter (fun ev => ev.id != event_id) },
     true)
  else
    (db, false)

/-- `database.py:269-285` — `get_event`: `SELECT * FROM events WHERE id = %s`
with `fetchone`. -/
def get_event (db : DB) (event_id : Nat) : Option Event :=
  db.events.find? (fun ev => ev.id == event_id)

/-- Claim C3 counterexample: all three required fields present but
`start_time = 5 ≥ 3 = end_time`, and `add_event` nevertheless inserts the row
and returns the new id — there is no `start_time >= end_time` validation in
the code. -/
theorem add_event_c3_counterexample :
    add_event { events := [], nextId := 1 }
        { emptyData with
          title := some "m"
          start_time := some 5
          end_time := some 3 } =
      .ok ({ events :=
              [{ id := 1, title := "m", description := "", start_time := 5,
                 end_time := 3, location := "", importance := 5,
                 status := "active" }],
             nextId := 2 },
           1) ∧ (5 : Int) ≥ 3 := by
  constructor
  · rfl
  · decide

/-- Claim C3 (amended): `add_event` fails — leaving the store unchanged —
exactly when `title`, `start_time` or `end_time` is absent; when all three
are present it always inserts the row (no `start_time >= end_time` check)
and returns the fresh id. -/
theorem add_event_spec (db : DB) (d : EventData) :
    ((∃ msg, add_event db d = .error msg) ↔
      (d.title = none ∨ d.start_time = none ∨ d.end_time = none)) ∧
    (∀ t s e, d.title = some t → d.start_time = some s →
      d.end_time = some e →
      add_event db d =
        .ok ({ events := db.events ++
                [{ id := db.nextId, title := t,
                   description := d.description.getD "",
                   start_time := s, end_time := e,
                   location := d.location.getD "",
                   importance := d.importance.getD 5,
                   status := "active" }],
               nextId := db.nextId + 1 },
             db.nextId)) := by
  constructor
  · unfold add_event
    cases d.title <;> cases d.start_time <;> cases d.end_time <;> simp
  · intro t s e ht hs he
    unfold add_event
    rw [ht, hs, he]

/-- Helper: mapping the row-update function over rows none of which match the
id leaves the list unchanged. -/
theorem map_update_of_no_match (d : EventData) (eid : Nat) :
    ∀ l : List Event, (∀ ev ∈ l, ev.id ≠ eid) →
      l.map (fun ev => if ev.id = eid then applyUpdate d ev else ev) = l
  | [], _ => rfl
  | a :: t, h => by
    rw [List.map_cons, if_neg (h a (List.mem_cons_self a t)),
      map_update_of_no_match d eid t
        (fun ev hev => h ev (List.mem_cons_of_mem a hev))]

/-- Helper: `update_event` on an id that matches no stored row returns
`false` and leaves the store unchanged. -/
theorem update_event_of_absent_id (db : DB) (eid : Nat) (d : EventData)
    (h : get_event db eid = none) : update_event db eid d = (db, false) := by
  rw [get_event, List.find?_eq_none] at h
  have h2 : ∀ ev ∈ db.events, ev.id ≠ eid := by
    intro ev hev
    have := h ev hev
    simpa using this
  unfold update_event
  split
  · rfl
  · rw [map_update_of_no_match d eid db.events h2]
    have hany : (db.events.any fun ev => ev.id == eid) = false := by
      rw [List.any_eq_false]
      intro ev hev
      simpa using h2 ev hev
    rw [hany]

/-- Claim C10: when the update dictionary contains no whitelisted mutable key,
`update_event` returns `false` and the store is unchanged — even when the id
refers to an existing event (no hypothesis on `eid` is needed). -/
theorem update_event_no_whitelisted_field (db : DB) (eid : Nat) (d : EventData)
    (h : d.title = none ∧ d.description = none ∧ d.start_time = none ∧
      d.end_time = none ∧ d.location = none ∧ d.importance = none ∧
      d.status = none) :
    update_event db eid d = (db, false) := by
  unfold update_event
  rw [if_pos h]

/-- Claim C10 witness: a store holding event 1, updated at id 1 with a
dictionary whose only key (`event_id`) is not whitelisted. -/
theorem update_event_no_whitelisted_field_witness :
    update_event
      { events := [{ id := 1, title := "t", description := "",
                     start_time := 0, end_time := 10, location := "",
                     importance := 5, status := "active" }], nextId := 2 }
      1 { emptyData with event_id := some 1 } =
    ({ events := [{ id := 1, title := "t", description := "",
                    start_time := 0, end_time := 10, location := "",
                    importance := 5, status := "active" }], nextId := 2 },
     false) :=
  update_event_no_whitelisted_field _ 1 _ (by decide)

/-- The outcome tag (`event_action`) of a dispatcher branch of
`process_message`, together with the payload (`event_data` /
`conflict_info`) the code attaches to it. -/
inductive Outcome where
  | created (id : Nat) (details : EventData)
  | conflict (conflicts : List Event) (proposed : EventData)
  | updated (ev : Option Event)
  | rescheduled (ev : Option Event)
  | deleted (ev : Event)
  | not_found
  | error
  | multiple_matches (ms : List Event)
  | needs_clarification
deriving DecidableEq, Repr

/-- `conversation_manager.py:244-246`: a missing `end_time` defaults to one
hour (3600 s) after `start_time`. -/
def resolveEnd (d : EventData) (s : Int) : Int :=
  d.end_time.getD (s + 3600)

/-- `conversation_manager.py:244-253`: the `event_details` dictionary after
the CREATE_EVENT branch has defaulted `end_time` and filled in the classified
importance `imp` when absent. -/
def resolveCreateDetails (d : EventData) (s : Int) (imp : Int) : EventData :=
  { d with end_time := some (resolveEnd d s),
           importance := some (d.importance.getD imp) }

/-- `conversation_manager.py:232-291` — the CREATE_EVENT branch of
`process_message`.  `imp` is the result of the external importance
classifier. -/
def processCreate (db : DB) (d : EventData) (imp : Int) : DB × Outcome :=
  match d.start_time with
  | none => (db, Outcome.needs_clarification)
  | some s =>
    let d2 := resolveCreateDetails d s imp
    let conflicts := check_conflicting_events db.events s (resolveEnd d s) none
    if conflicts = [] then
      match add_event db d2 with
      | .ok (db2, i) => (db2, Outcome.created i d2)
      | .error _ => (db, Outcome.error)
    else
      (db, Outcome.conflict conflicts d2)

/-- `conversation_manager.py:293-344` — the UPDATE_EVENT branch of
`process_message`. -/
def processUpdate (db : DB) (d : EventData) : DB × Outcome :=
  match d.event_id with
  | none => (db, Outcome.needs_clarification)
  | some eid =>
    if d.start_time.isSome || d.end_time.isSome then
      match get_event db eid with
      | none => (db, Outcome.not_found)
      | some cur =>
        let s := d.start_time.getD cur.start_time
        let e := d.end_time.getD cur.end_time
        let conflicts := check_conflicting_events db.events s e (some eid)
        if conflicts = [] then
          let p := update_event db eid d
          if p.2 then (p.1, Outcome.updated (get_event p.1 eid))
          else (p.1, Outcome.error)
        else
          (db, Outcome.conflict conflicts d)
    else
      let p := update_event db eid d
      if p.2 then (p.1, Outcome.updated (get_event p.1 eid))
      else (p.1, Outcome.error)

/-- `conversation_manager.py:429-460` — the RESCHEDULE_EVENT branch of
`process_message`. -/
def processReschedule (db : DB) (d : EventData) : DB × Outcome :=
  match d.event_id, d.start_time, d.end_time with
  | some eid, some s, some e =>
    let conflicts := check_conflicting_events db.events s e (some eid)
    if conflicts = [] then
      let p := update_event db eid
        { emptyData with start_time := some s, end_time := some e }
      if p.2 then (p.1, Outcome.rescheduled (get_event p.1 eid))
      else (p.1, Outcome.error)
    else
      (db, Outcome.conflict conflicts d)
  | _, _, _ => (db, Outcome.needs_clarification)

/-- Python list/str prefix test used to model the `in` operator: the first
list occurs at the head of the second. -/
def matchesAt : List Char → List Char → Bool
  | [], _ => true
  | _ :: _, [] => false
  | a :: as, b :: bs => a == b && matchesAt as bs

/-- Python substring test `n in h` on lists of characters. -/
def occursIn : List Char → List Char → Bool
  | n, [] => matchesAt n []
  | n, b :: bs => matchesAt n (b :: bs) || occursIn n bs

/-- `conversation_manager.py:381` — the case-insensitive substring match
`event_details["title"].lower() in e["title"].lower()` (`str.lower` acts
character-wise). -/
def lowerContains (needle hay : String) : Bool :=
  occursIn (needle.data.map Char.toLower) (hay.data.map Char.toLower)

/-- `conversation_manager.py:376-381` — `matching_events`: the events of the
window `[now − 30 d, now + 365 d]` whose title contains the searched title,
case-insensitively. -/
def titleMatches (db : DB) (now : Int) (title : String) : List Event :=
  (get_events_in_range db.events (now - 30 * 86400)
      (now + 365 * 86400)).filter
    (fun ev => lowerContains title ev.title)

/-- `conversation_manager.py:371-401` — the DELETE_EVENT branch of
`process_message` when no `event_id` is supplied but a `title` is. -/
def deleteByTitle (db : DB) (now : Int) (title : String) : DB × Outcome :=
  match titleMatches db now title with
  | [] => (db, Outcome.not_found)
  | [m] =>
    let p := delete_event db m.id
    if p.2 then (p.1, Outcome.deleted m) else (p.1, Outcome.error)
  | ms => (db, Outcome.multiple_matches ms)

/-- A dispatch of `process_message` to one of the three branches that run the
conflict resolver before mutating the store. -/
inductive Dispatch where
  | create (d : EventData) (imp : Int)
  | update (d : EventData)
  | reschedule (d : EventData)
deriving DecidableEq, Repr

/-- The store transition and outcome of one dispatch. -/
def processDispatch (db : DB) : Dispatch → DB × Outcome
  | .create d imp => processCreate db d imp
  | .update d => processUpdate db d
  | .reschedule d => processReschedule db d

/-- The conflict list the dispatched branch asks the conflict resolver for
(`none` when the branch never reaches the conflict check). -/
def dispatchConflicts (db : DB) : Dispatch → Option (List Event)
  | .create d _ =>
    match d.start_time with
    | none => none
    | some s =>
      some (check_conflicting_events db.events s (resolveEnd d s) none)
  | .update d =>
    match d.event_id with
    | none => none
    | some eid =>
      if d.start_time.isSome || d.end_time.isSome then
        match get_event db eid with
        | none => none
        | some cur =>
          some (check_conflicting_events db.events
            (d.start_time.getD cur.start_time)
            (d.end_time.getD cur.end_time) (some eid))
      else none
  | .reschedule d =>
    match d.event_id, d.start_time, d.end_time with
    | some eid, some s, some e =>
      some (check_conflicting_events db.events s e (some eid))
    | _, _, _ => none

/-- Claim C2: whenever a CREATE_EVENT, UPDATE_EVENT-with-time-fields or
RESCHEDULE_EVENT dispatch reaches the conflict resolver and it returns a
non-empty list, the store is left unchanged and the outcome is `conflict`
with exactly that list as payload. -/
theorem dispatch_conflict_frame (db : DB) (disp : Dispatch) (cs : List Event)
    (h : dispatchConflicts db disp = some cs) (hne : cs ≠ []) :
    (processDispatch db disp).1 = db ∧
    ∃ pd, (processDispatch db disp).2 = Outcome.conflict cs pd := by
  cases disp with
  | create d imp =>
    cases hs : d.start_time with
    | none => simp [dispatchConflicts, hs] at h
    | some s =>
      simp only [dispatchConflicts, hs, Option.some.injEq] at h
      subst h
      simp only [processDispatch, processCreate, hs]
      rw [if_neg hne]
      exact ⟨rfl, _, rfl⟩
  | update d =>
    cases hid : d.event_id with
    | none => simp [dispatchConflicts, hid] at h
    | some eid =>
      cases hb : (d.start_time.isSome || d.end_time.isSome) with
      | false => simp [dispatchConflicts, hid, hb] at h
      | true =>
        cases hcur : get_event db eid with
        | none => simp [dispatchConflicts, hid, hb, hcur] at h
        | some cur =>
          simp only [dispatchConflicts, hid, hb, hcur, if_true,
            Option.some.injEq] at h
          subst h
          simp only [processDispatch, processUpdate, hid, hb, hcur, if_true]
          rw [if_neg hne]
          exact ⟨rfl, _, rfl⟩
  | reschedule d =>
    cases hid : d.event_id with
    | none => simp [dispatchConflicts, hid] at h
    | some eid =>
      cases hs : d.start_time with
      | none => simp [dispatchConflicts, hid, hs] at h
      | some s =>
        cases he : d.end_time with
        | none => simp [dispatchConflicts, hid, hs, he] at h
        | some e =>
          simp only [dispatchConflicts, hid, hs, he, Option.some.injEq] at h
          subst h
          simp only [processDispatch, processReschedule, hid, hs, he]
          rw [if_neg hne]
          exact ⟨rfl, _, rfl⟩

/-- A sample stored event used by concrete witnesses. -/
def evA : Event :=
  { id := 1, title := "Team Meeting", description := "", start_time := 0,
    end_time := 100, location := "", importance := 5, status := "active" }

/-- A sample store holding only `evA`. -/
def dbA : DB :=
  { events := [evA], nextId := 2 }

/-- Claim C2 witness: creating an event overlapping `evA` leaves the store
unchanged and reports the conflict with `evA` as payload. -/
theorem dispatch_conflict_frame_witness :
    (processDispatch dbA (Dispatch.create
        { emptyData with
          title := some "B"
          start_time := some 50
          end_time := some 150 } 5)).1 = dbA ∧
    ∃ pd, (processDispatch dbA (Dispatch.create
        { emptyData with
          title := some "B"
          start_time := some 50
          end_time := some 150 } 5)).2 = Outcome.conflict [evA] pd :=
  dispatch_conflict_frame dbA _ [evA] (by decide) (by decide)

/-- Claim C5 counterexample: an UPDATE_EVENT dispatch whose `event_id`
matches no stored event and whose fields contain no time field yields
outcome `error`, not `not_found`. -/
theorem processUpdate_c5_counterexample :
    (processUpdate { events := [], nextId := 1 }
        { emptyData with
          title := some "x"
          event_id := some 1 }).2 = Outcome.error ∧
    Outcome.error ≠ Outcome.not_found ∧
    get_event { events := [], nextId := 1 } 1 = none := by
  decide

/-- Claim C5 (amended): an UPDATE_EVENT dispatch with an `event_id` matching
no stored event leaves the store unchanged; the outcome is `not_found` when
the supplied fields include a time field, and `error` otherwise. -/
theorem processUpdate_unknown_id (db : DB) (d : EventData) (eid : Nat)
    (hid : d.event_id = some eid) (hmiss : get_event db eid = none) :
    ((d.start_time.isSome || d.end_time.isSome) = true →
      processUpdate db d = (db, Outcome.not_found)) ∧
    ((d.start_time.isSome || d.end_time.isSome) = false →
      processUpdate db d = (db, Outcome.error)) := by
  constructor
  · intro hb
    simp [processUpdate, hid, hb, hmiss]
  · intro hb
    simp only [processUpdate, hid, hb]
    rw [update_event_of_absent_id db eid d hmiss]
    simp

/-- Claim C5 witness: updating the start time of the unknown event 7 on an
empty store reports `not_found` and changes nothing. -/
theorem processUpdate_unknown_id_witness :
    processUpdate { events := [], nextId := 1 }
      { emptyData with
        start_time := some 0
        event_id := some 7 } =
    ({ events := [], nextId := 1 }, Outcome.not_found) :=
  (processUpdate_unknown_id { events := [], nextId := 1 } _ 7
    (by decide) (by decide)).1 (by decide)

/-- Helper: every event returned by `get_events_in_range` is a stored
event. -/
theorem mem_of_mem_range {events : List Event} {s e : Int} {E : Event}
    (h : E ∈ get_events_in_range events s e) : E ∈ events := by
  rw [get_events_in_range,
    (List.perm_insertionSort startOrder _).mem_iff, List.mem_filter] at h
  exact h.1

/-- Claim C6: deleting by title with no `event_id` matches the title
case-insensitively as a substring over the events of the window
`[now − 30 d, now + 365 d]`; no match gives `not_found` with no deletion,
exactly one match deletes that event with outcome `deleted`, and two or more
matches give `multiple_matches` carrying the full candidate list with no
deletion. -/
theorem deleteByTitle_spec (db : DB) (now : Int) (title : String) :
    (titleMatches db now title = [] →
      deleteByTitle db now title = (db, Outcome.not_found)) ∧
    (∀ m, titleMatches db now title = [m] →
      deleteByTitle db now title =
        ({ db with events := db.events.filter (fun ev => ev.id != m.id) },
         Outcome.deleted m)) ∧
    (2 ≤ (titleMatches db now title).length →
      deleteByTitle db now title =
        (db, Outcome.multiple_matches (titleMatches db now title))) := by
  refine ⟨?_, ?_, ?_⟩
  · intro h
    unfold deleteByTitle
    rw [h]
  · intro m h
    have hmm : m ∈ titleMatches db now title := by
      rw [h]
      exact List.mem_cons_self m []
    rw [titleMatches] at hmm
    have hmem : m ∈ db.events := mem_of_mem_range (List.mem_filter.mp hmm).1
    have hany : (db.events.any fun ev => ev.id == m.id) = true := by
      rw [List.any_eq_true]
      exact ⟨m, hmem, by simp⟩
    have hdel : delete_event db m.id =
        ({ db with events := db.events.filter (fun ev => ev.id != m.id) },
         true) := by
      unfold delete_event
      rw [if_pos hany]
    unfold deleteByTitle
    rw [h]
    simp [hdel]
  · intro h2
    rcases hm : titleMatches db now title with _ | ⟨a, t⟩
    · rw [hm] at h2
      simp at h2
    · rcases ht : t with _ | ⟨b, u⟩
      · rw [hm, ht] at h2
        simp at h2
      · rw [ht] at hm
        unfold deleteByTitle
        rw [hm]

/-- Claim C6 witness: the query "team" matches exactly the stored event
`evA` ("Team Meeting"), which is deleted. -/
theorem deleteByTitle_spec_witness :
    deleteByTitle dbA 0 "team" =
      ({ dbA with events := dbA.events.filter (fun ev => ev.id != evA.id) },
       Outcome.deleted evA) :=
  (deleteByTitle_spec dbA 0 "team").2.1 evA (by decide)

/-- The seven intent labels of `intent_classifier.py:19-27`. -/
def intent_types : List String :=
  ["CREATE_EVENT", "UPDATE_EVENT", "DELETE_EVENT", "QUERY_EVENT",
   "CHECK_AVAILABILITY", "RESCHEDULE_EVENT", "GENERAL_CONVERSATION"]

/-- The JSON object parsed out of the model response
(`intent_classifier.py:110`); the `intent` key may be absent or hold an
arbitrary string. -/
structure RawClassification where
  intent : Option String
  confidence : ℚ
  needs_clarification : Bool
  clarification_question : String
deriving DecidableEq, Repr

/-- The dictionary `classify_intent` hands back to its caller. -/
structure IntentResult where
  intent : String
  confidence : ℚ
  needs_clarification : Bool
  clarification_question : String
deriving DecidableEq, Repr

/-- What the model call and JSON extraction can yield: an exception anywhere
in the try block, a response whose extracted text fails to parse as JSON, or
a parsed JSON object. -/
inductive ClassifierOutcome where
  | modelFailure
  | unparseable
  | parsed (r : RawClassification)
deriving DecidableEq, Repr

/-- `intent_classifier.py:90-184` — the outcome post-processing of
`classify_intent`: an exception degrades to GENERAL_CONVERSATION with
`needs_clarification = False` (lines 175-184); a JSON parse failure returns
GENERAL_CONVERSATION with `needs_clarification = True` and a clarification
question (lines 111-120); a parsed object has its intent coerced into the
known labels (lines 122-124).  The datetime post-processing of
`event_details` does not touch these fields and is not modelled. -/
def classify_intent : ClassifierOutcome → IntentResult
  | .modelFailure =>
    { intent := "GENERAL_CONVERSATION", confidence := 1/2,
      needs_clarification := false, clarification_question := "" }
  | .unparseable =>
    { intent := "GENERAL_CONVERSATION", confidence := 1/2,
      needs_clarification := true,
      clarification_question :=
        "I\x27m not sure what you\x27d like me to do. Could you clarify?" }
  | .parsed r =>
    { intent :=
        match r.intent with
        | some s => if s ∈ intent_types then s else "GENERAL_CONVERSATION"
        | none => "GENERAL_CONVERSATION",
      confidence := r.confidence,
      needs_clarification := r.needs_clarification,
      clarification_question := r.clarification_question }

/-- Claim C7 counterexample: on unparseable model output `classify_intent`
degrades to GENERAL_CONVERSATION but with `needs_clarification = True`, not
`False` as claimed. -/
theorem classify_intent_c7_counterexample :
    (classify_intent ClassifierOutcome.unparseable).intent =
      "GENERAL_CONVERSATION" ∧
    (classify_intent ClassifierOutcome.unparseable).needs_clarification ≠
      false := by
  decide

/-- Claim C7 (amended): an intent value outside the seven known labels is
coerced to GENERAL_CONVERSATION, and the returned intent is always one of
the seven; an exception degrades to GENERAL_CONVERSATION with
`needs_clarification = false`; unparseable output degrades to
GENERAL_CONVERSATION with `needs_clarification = true`.  No failure
propagates (the embedding is a total function). -/
theorem classify_intent_amended :
    (∀ r : RawClassification, (∀ s ∈ intent_types, r.intent ≠ some s) →
      (classify_intent (ClassifierOutcome.parsed r)).intent =
        "GENERAL_CONVERSATION") ∧
    (∀ o, (classify_intent o).intent ∈ intent_types) ∧
    ((classify_intent ClassifierOutcome.modelFailure).intent =
        "GENERAL_CONVERSATION" ∧
      (classify_intent ClassifierOutcome.modelFailure).needs_clarification =
        false) ∧
    ((classify_intent ClassifierOutcome.unparseable).intent =
        "GENERAL_CONVERSATION" ∧
      (classify_intent ClassifierOutcome.unparseable).needs_clarification =
        true) := by
  refine ⟨?_, ?_, by decide, by decide⟩
  · intro r h
    cases hri : r.intent with
    | none => simp [classify_intent, hri]
    | some s =>
      have hs : s ∉ intent_types := fun hmem => (h s hmem) hri
      simp [classify_intent, hri, hs]
  · intro o
    cases o with
    | modelFailure => decide
    | unparseable => decide
    | parsed r =>
      cases hri : r.intent with
      | none =>
        simp only [classify_intent, hri]
        decide
      | some s =>
        simp only [classify_intent, hri]
        by_cases hs : s ∈ intent_types
        · rw [if_pos hs]
          exact hs
        · rw [if_neg hs]
          decide

/-- Claim C7 witness: the unknown label MAKE_COFFEE is coerced to
GENERAL_CONVERSATION. -/
theorem classify_intent_amended_witness :
    (classify_intent (ClassifierOutcome.parsed
      { intent := some "MAKE_COFFEE", confidence := 1,
        needs_clarification := false,
        clarification_question := "" })).intent = "GENERAL_CONVERSATION" :=
  classify_intent_amended.1 _ (by decide)

/-- One entry of the in-memory `conversation_history` ledger
(`conversation_manager.py:590-597`). -/
structure Turn where
  user_message : String
  bot_response : String
  intent : Option String
  timestamp : Int
  related_event_id : Option Nat
  id : Nat
deriving DecidableEq, Repr

/-- `conversation_manager.py:590-601` — appending one turn and trimming:
after the append, if the ledger exceeds 50 entries, only the last 50 are
kept (`self.conversation_history[-50:]`). -/
def appendTurn (history : List Turn) (t : Turn) : List Turn :=
  let h := history ++ [t]
  if h.length > 50 then h.drop (h.length - 50) else h

/-- Claim C8: starting from a ledger within its capacity of 50, an append
never leaves more than 50 entries; below capacity nothing is evicted (the
result is exactly the old ledger followed by the new turn); at capacity
exactly the single oldest entry is evicted and all remaining entries keep
their relative order. -/
theorem appendTurn_capacity (history : List Turn) (t : Turn)
    (hcap : history.length ≤ 50) :
    (appendTurn history t).length ≤ 50 ∧
    (history.length < 50 → appendTurn history t = history ++ [t]) ∧
    (history.length = 50 → appendTurn history t = history.drop 1 ++ [t]) := by
  refine ⟨?_, ?_, ?_⟩
  · simp only [appendTurn]
    split
    · rw [List.length_drop]
      omega
    · simp only [List.length_append, List.length_singleton] at *
      omega
  · intro hlt
    simp only [appendTurn]
    rw [if_neg]
    simp only [List.length_append, List.length_singleton]
    omega
  · intro h50
    simp only [appendTurn]
    rw [if_pos (by simp [List.length_append, h50])]
    have hlen : (history ++ [t]).length - 50 = 1 := by
      simp [List.length_append, h50]
    rw [hlen, List.drop_append_of_le_length (by omega)]

/-- A sample ledger entry used by the capacity witness. -/
def turnA : Turn :=
  { user_message := "hi", bot_response := "hello", intent := none,
    timestamp := 0, related_event_id := none, id := 1 }

/-- Claim C8 witness: appending to a full ledger of 50 copies of `turnA`
keeps the length at 50, and evicts exactly the oldest entry. -/
theorem appendTurn_capacity_witness :
    (appendTurn (List.replicate 50 turnA) turnA).length ≤ 50 ∧
    ((List.replicate 50 turnA).length < 50 →
      appendTurn (List.replicate 50 turnA) turnA =
        List.replicate 50 turnA ++ [turnA]) ∧
    ((List.replicate 50 turnA).length = 50 →
      appendTurn (List.replicate 50 turnA) turnA =
        (List.replicate 50 turnA).drop 1 ++ [turnA]) :=
  appendTurn_capacity (List.replicate 50 turnA) turnA (by simp)

/-- `conversation_manager.py:93-109` — `_fallback_embedding` before
normalisation: for index `i` the hex digit `digest(i % 32)` of the MD5
digest of the text is mapped to `(digit / 15) * 2 - 1`.  The digest is an
abstract parameter (a function from the 32 hex positions to hex digits);
`dimension` models `VECTOR_DIMENSION` (default 1536). -/
def fallback_embedding_raw (digest : Fin 32 → Fin 16) (dimension : Nat) :
    List ℚ :=
  (List.range dimension).map (fun i =>
    (((digest ⟨i % 32, Nat.mod_lt i (by decide)⟩).val : ℚ) / 15) * 2 - 1)

/-- `conversation_manager.py:113` — the squared magnitude
`sum(x*x for x in embedding)`. -/
def sumSq (v : List ℚ) : ℚ :=
  (v.map (fun x => x * x)).sum

/-- Helper: every raw embedding entry has positive square (its value is
`(2 c − 15)/15` for a hex digit `c`, which is never zero). -/
theorem raw_entry_sq_pos (digest : Fin 32 → Fin 16) (dimension : Nat) :
    ∀ x ∈ fallback_embedding_raw digest dimension, 0 < x * x := by
  intro x hx
  rw [fallback_embedding_raw, List.mem_map] at hx
  obtain ⟨i, _, hxi⟩ := hx
  refine mul_self_pos.mpr ?_
  rw [← hxi]
  intro h0
  have h1 : ((digest ⟨i % 32, Nat.mod_lt i (by decide)⟩).val : ℚ) * 2 = 15 :=
    by field_simp at h0; linarith
  have h2 : ((digest ⟨i % 32, Nat.mod_lt i (by decide)⟩).val * 2 : ℕ) =
      (15 : ℕ) := by exact_mod_cast h1
  omega

/-- Helper: for a positive dimension the squared magnitude of the raw
embedding is positive, so the normalisation never divides by zero. -/
theorem sumSq_raw_pos (digest : Fin 32 → Fin 16) (dimension : Nat)
    (hd : 0 < dimension) :
    0 < sumSq (fallback_embedding_raw digest dimension) := by
  rw [sumSq]
  apply List.sum_pos
  · intro y hy
    rw [List.mem_map] at hy
    obtain ⟨x, hx, rfl⟩ := hy
    exact raw_entry_sq_pos digest dimension x hx
  · intro hnil
    have hlen := congrArg List.length hnil
    simp [fallback_embedding_raw] at hlen
    omega

/-- Helper: dividing every entry of a rational list by a real `m` divides
the sum of squares by `m * m`. -/
theorem sum_sq_div (v : List ℚ) (m : ℝ) :
    ((v.map (fun x : ℚ => (x : ℝ) / m)).map (fun y => y * y)).sum =
      (((v.map (fun x => x * x)).sum : ℚ) : ℝ) / (m * m) := by
  induction v with
  | nil => simp
  | cons a t ih =>
    simp only [List.map_cons, List.sum_cons, Rat.cast_add, Rat.cast_mul]
    rw [ih, div_mul_div_comm, div_add_div_same]

/-- Claim C9: the fallback embedding depends only on the digest of the text
(hence two evaluations on the same text agree), the normalised vector has
exactly the configured dimension, and its sum of squared entries — the
square of its L2 norm — is exactly 1 (the code's floating-point tolerance is
modelled by exact real arithmetic). -/
theorem fallback_embedding_spec (md5hex : String → Fin 32 → Fin 16)
    (dimension : Nat) (t u : String) (hd : 0 < dimension) :
    (md5hex t = md5hex u →
      fallback_embedding_raw (md5hex t) dimension =
        fallback_embedding_raw (md5hex u) dimension) ∧
    ((fallback_embedding_raw (md5hex t) dimension).map
        (fun x : ℚ => (x : ℝ) / Real.sqrt
          ((sumSq (fallback_embedding_raw (md5hex t) dimension) : ℚ) :
            ℝ))).length = dimension ∧
    (((fallback_embedding_raw (md5hex t) dimension).map
        (fun x : ℚ => (x : ℝ) / Real.sqrt
          ((sumSq (fallback_embedding_raw (md5hex t) dimension) : ℚ) :
            ℝ))).map (fun y => y * y)).sum = 1 := by
  refine ⟨fun h => by rw [h], ?_, ?_⟩
  · rw [List.length_map, fallback_embedding_raw, List.length_map,
      List.length_range]
  · have hS : 0 < sumSq (fallback_embedding_raw (md5hex t) dimension) :=
      sumSq_raw_pos (md5hex t) dimension hd
    have hSR : (0 : ℝ) <
        ((sumSq (fallback_embedding_raw (md5hex t) dimension) : ℚ) : ℝ) := by
      exact_mod_cast hS
    rw [sum_sq_div, Real.mul_self_sqrt (le_of_lt hSR)]
    rw [show ((fallback_embedding_raw (md5hex t) dimension).map
        (fun x => x * x)).sum =
        sumSq (fallback_embedding_raw (md5hex t) dimension) from rfl]
    exact div_self (ne_of_gt hSR)

/-- Claim C9 witness: a constant digest of hex digit 3 at dimension 4. -/
theorem fallback_embedding_spec_witness :
    ((fallback_embedding_raw ((fun _ _ => (3 : Fin 16)) "a") 4).map
        (fun x : ℚ => (x : ℝ) / Real.sqrt
          ((sumSq (fallback_embedding_raw ((fun _ _ => (3 : Fin 16)) "a") 4) :
            ℚ) : ℝ))).length = 4 :=
  (fallback_embedding_spec (fun _ _ => (3 : Fin 16)) 4 "a" "a" (by decide)).2.1
